import Mathlib

/-!
# VenueSphere core: shallow embedding and verification

This file embeds the core workflows of the venue-booking backend
(`src/app.py` handlers `register_user`, `login_user`, `get_profile`,
`add_venue`, over the relational model of `src/models.py`) as pure Lean
functions on an explicit database state, and proves the spec claims
about them.

Modelling decisions, each taken from the source:

* The SQLAlchemy session/commit/rollback discipline is made explicit:
  `db.session.commit()` durably applies pending writes to the state, and
  `db.session.rollback()` discards only the writes still pending in the
  session, never writes that an earlier `commit()` already persisted.
  `register_user` commits the new `User` row (app.py line 66) before it
  builds the profile row, so the later `rollback()` calls (lines 81 and
  88) cannot remove that row.
* A commit can fail with an exception. Deterministic causes are embedded
  directly: the unique constraint on `users.phone_number`
  (models.py line 27) and the `db.Enum(UserType)` lookup on a role
  string outside the enum (models.py line 28). Other storage faults
  (connection loss etc.) are injected through explicit boolean fault
  flags, one per commit site.
* bcrypt hashing and checking are out-of-scope external capabilities
  (spec section 6) and are passed in as function parameters.
* JSON request bodies become structures of `Option` fields
  (`none` = key absent); `request.get_json()` returning no body is the
  `none` case of an `Option` around the whole structure. Evaluating
  `field in data` on a `None` body raises `TypeError` in Python, which
  Flask turns into a server error; that outcome is the `serverError`
  constructor.
-/

namespace VenueSphere

/-- The `UserType` enum of models.py. -/
inductive UserType where
  | CUSTOMER
  | PROVIDER
  | ADMIN
deriving DecidableEq, Repr

/-- Lookup of a role string in the `db.Enum(UserType)` column type: a string
that is not the name of an enum member raises at commit time, modelled as
`none`. -/
def UserType.fromString : String → Option UserType
  | "CUSTOMER" => some .CUSTOMER
  | "PROVIDER" => some .PROVIDER
  | "ADMIN" => some .ADMIN
  | _ => none

/-- `UserType.value` in Python: the string payload of the enum member. -/
def UserType.value : UserType → String
  | .CUSTOMER => "CUSTOMER"
  | .PROVIDER => "PROVIDER"
  | .ADMIN => "ADMIN"

/-- Python `str.upper()` as used on the role tag: character-wise
uppercasing (the role strings compared against are plain ASCII).  Written
over the character list so that it evaluates inside the kernel. -/
def pyUpper (s : String) : String := String.mk (s.data.map Char.toUpper)

/-- A row of the `users` table (models.py `User`); the timestamp columns are
not read by any workflow in scope and are omitted. -/
structure UserRow where
  id : Nat
  email : String
  password_hash : String
  phone_number : String
  user_type : UserType
  is_active : Bool := true
deriving DecidableEq, Repr

/-- A row of `customer_profiles` (models.py `CustomerProfile`); keyed by the
owning user id. -/
structure CustomerProfileRow where
  user_id : Nat
  first_name : String
  last_name : String
  profile_picture_url : Option String := none
deriving DecidableEq, Repr

/-- A row of `provider_profiles` (models.py `ProviderProfile`). -/
structure ProviderProfileRow where
  user_id : Nat
  company_name : String
  business_registration_number : Option String := none
  tax_id : Option String := none
  business_address : Option String := none
  is_verified : Bool := false
deriving DecidableEq, Repr

/-- A row of `venues` (models.py `Venue`).  `price_per_hour` is a
`Numeric(10,2)` column: the workflows in scope only store and return it, so it
is carried as the literal string of the request; `latitude`/`longitude` are
likewise never computed with. -/
structure VenueRow where
  id : Nat
  provider_id : Nat
  category_id : Nat
  name : String
  description : Option String
  address : String
  latitude : Option String
  longitude : Option String
  capacity : Nat
  price_per_hour : String
  status : String
deriving DecidableEq, Repr

/-- The committed database state: the tables the in-scope workflows touch,
plus the autoincrement counters for the two surrogate-key tables. -/
structure DBState where
  users : List UserRow
  customerProfiles : List CustomerProfileRow
  providerProfiles : List ProviderProfileRow
  venues : List VenueRow
  nextUserId : Nat
  nextVenueId : Nat
deriving DecidableEq, Repr

/-- Injected storage faults for `register_user`: whether the commit of the
`User` row, respectively of the profile row, raises for a reason other than
the deterministic constraints embedded in `register` itself. -/
structure Faults where
  userCommit : Bool
  profileCommit : Bool
deriving DecidableEq, Repr

/-- The JSON body of a `/register` request; `none` marks an absent key.
Keys other than these may be present in the JSON but are never read. -/
structure RegisterRequest where
  email : Option String
  password : Option String
  phone_number : Option String
  user_type : Option String
  first_name : Option String := none
  last_name : Option String := none
  company_name : Option String := none
deriving DecidableEq, Repr

/-- Outcome of `register_user`, one constructor per `return` site of the
handler. -/
inductive RegisterResult where
  | created (id : Nat) (email : String) (user_type : String)
  | missingFields
  | customerFieldsMissing
  | providerFieldsMissing
  | emailConflict
  | invalidUserType
  | dbError
deriving DecidableEq, Repr

/-- The HTTP status code attached to each `register_user` outcome in
app.py. -/
def RegisterResult.statusCode : RegisterResult → Nat
  | .created _ _ _ => 201
  | .missingFields => 400
  | .customerFieldsMissing => 400
  | .providerFieldsMissing => 400
  | .emailConflict => 409
  | .invalidUserType => 400
  | .dbError => 500

/-- `register_user` (app.py lines 35-98), line by line:
field-presence validation, role-specific validation on the uppercased role,
email-uniqueness pre-check, then inside the `try` block the commit of the new
`User` row followed by the build-and-commit of the role profile.  The `User`
commit raises when the phone number violates its unique constraint, when the
role string is outside the enum, or on an injected fault; the `rollback()` of
the `else` branch and of the `except` handler discards only uncommitted
session state, so the state it returns still holds the committed user row. -/
def register (hashFn : String → String) (f : Faults) (s : DBState)
    (data : Option RegisterRequest) : RegisterResult × DBState :=
  match data with
  | none => (.missingFields, s)
  | some d =>
    if d.email = none ∨ d.password = none ∨ d.phone_number = none ∨
        d.user_type = none then
      (.missingFields, s)
    else
      let ut := pyUpper (d.user_type.getD "")
      if ut = "CUSTOMER" ∧ (d.first_name = none ∨ d.last_name = none) then
        (.customerFieldsMissing, s)
      else if ut = "PROVIDER" ∧ d.company_name = none then
        (.providerFieldsMissing, s)
      else if s.users.any (fun u => u.email == d.email.getD "") then
        (.emailConflict, s)
      else
        let hashed := hashFn (d.password.getD "")
        match UserType.fromString ut with
        | none => (.dbError, s)
        | some t =>
          if f.userCommit ∨
              s.users.any (fun u => u.phone_number == d.phone_number.getD "") then
            (.dbError, s)
          else
            let newUser : UserRow :=
              { id := s.nextUserId, email := d.email.getD "",
                password_hash := hashed,
                phone_number := d.phone_number.getD "", user_type := t }
            let s1 : DBState :=
              { s with users := s.users ++ [newUser],
                       nextUserId := s.nextUserId + 1 }
            match t with
            | .CUSTOMER =>
              if f.profileCommit then (.dbError, s1)
              else
                (.created newUser.id newUser.email t.value,
                 { s1 with customerProfiles := s1.customerProfiles ++
                     [{ user_id := newUser.id,
                        first_name := d.first_name.getD "",
                        last_name := d.last_name.getD "" }] })
            | .PROVIDER =>
              if f.profileCommit then (.dbError, s1)
              else
                (.created newUser.id newUser.email t.value,
                 { s1 with providerProfiles := s1.providerProfiles ++
                     [{ user_id := newUser.id,
                        company_name := d.company_name.getD "" }] })
            | .ADMIN => (.invalidUserType, s1)

/-- The JSON body of a `/login` request. -/
structure LoginRequest where
  email : Option String
  password : Option String
deriving DecidableEq, Repr

/-- Outcome of `login_user`, one constructor per `return` site. -/
inductive LoginResult where
  | missingFields
  | token (t : String)
  | invalidCredentials
deriving DecidableEq, Repr

/-- The HTTP status code of each `login_user` outcome. -/
def LoginResult.statusCode : LoginResult → Nat
  | .missingFields => 400
  | .token _ => 200
  | .invalidCredentials => 401

/-- `login_user` (app.py lines 100-115): presence check on email and
password, first-match lookup of the user by exact email, then a single
combined test `user and bcrypt.check_password_hash(...)`; every failing
combination falls through to the one `Invalid credentials` return.
`checkFn` is the external bcrypt verifier. -/
def login (checkFn : String → String → Bool) (s : DBState)
    (data : Option LoginRequest) : LoginResult :=
  match data with
  | none => .missingFields
  | some d =>
    match d.email, d.password with
    | some e, some p =>
      match s.users.find? (fun u => u.email == e) with
      | some u =>
        if checkFn u.password_hash p then .token (toString u.id)
        else .invalidCredentials
      | none => .invalidCredentials
    | _, _ => .missingFields

/-- Outcome of `get_profile`, one constructor per exit point.  `attrError`
is the `AttributeError` Python raises on line 131 or 139 when the
relationship attribute is `None` because no profile row exists; Flask turns
it into a server error response. -/
inductive ProfileResult where
  | userNotFound
  | customerData (id : Nat) (email first_name last_name : String)
  | providerData (id : Nat) (email company_name : String) (is_verified : Bool)
  | profileNotFound
  | attrError
deriving DecidableEq, Repr

/-- The HTTP status code of each `get_profile` outcome. -/
def ProfileResult.statusCode : ProfileResult → Nat
  | .userNotFound => 404
  | .customerData _ _ _ _ => 200
  | .providerData _ _ _ _ => 200
  | .profileNotFound => 404
  | .attrError => 500

/-- `get_profile` (app.py lines 117-143): primary-key lookup of the user from
the resolved identity; 404 when absent; for a CUSTOMER the handler
dereferences `user.customer_profile.first_name` with no `None` check, so a
missing profile row raises (`attrError`), and symmetrically for a PROVIDER;
only a role with no branch at all (ADMIN) reaches the final
`Profile not found for user type` 404. -/
def get_profile (s : DBState) (uid : Nat) : ProfileResult :=
  match s.users.find? (fun u => u.id == uid) with
  | none => .userNotFound
  | some u =>
    match u.user_type with
    | .CUSTOMER =>
      match s.customerProfiles.find? (fun p => p.user_id == u.id) with
      | none => .attrError
      | some p => .customerData u.id u.email p.first_name p.last_name
    | .PROVIDER =>
      match s.providerProfiles.find? (fun p => p.user_id == u.id) with
      | none => .attrError
      | some p => .providerData u.id u.email p.company_name p.is_verified
    | .ADMIN => .profileNotFound

/-- The JSON body of a `/venues` request.  A client may also send a
`provider_id` key; the handler never reads it, so it is carried here only to
state that fact. -/
structure VenueRequest where
  name : Option String
  category_id : Option Nat
  address : Option String
  capacity : Option Nat
  price_per_hour : Option String
  description : Option String := none
  latitude : Option String := none
  longitude : Option String := none
  provider_id : Option Nat := none
deriving DecidableEq, Repr

/-- Outcome of `add_venue`.  `serverError` is the `TypeError` raised by
`field in data` when `data` is `None`: unlike `register_user`, `add_venue`
has no `not data` guard (app.py line 160), so a missing body escapes as an
unhandled exception. -/
inductive VenueResult where
  | createdVenue (id : Nat)
  | forbidden
  | missingFields
  | serverError
  | dbError
deriving DecidableEq, Repr

/-- The HTTP status code of each `add_venue` outcome; an unhandled Python
exception surfaces as a 500 response. -/
def VenueResult.statusCode : VenueResult → Nat
  | .createdVenue _ => 201
  | .forbidden => 403
  | .missingFields => 400
  | .serverError => 500
  | .dbError => 500

/-- `add_venue` (app.py lines 146-188): primary-key lookup of the resolved
identity, the combined authorization test
`not user or user.user_type != UserType.PROVIDER`, the required-field check
(which raises on a `None` body), then construction of the `Venue` row with
`provider_id=user.id` and the model default `status` of `UNDER_REVIEW`
(models.py line 109), committed with a possible injected storage fault. -/
def add_venue (s : DBState) (uid : Nat) (data : Option VenueRequest)
    (fault : Bool) : VenueResult × DBState :=
  match s.users.find? (fun u => u.id == uid) with
  | none => (.forbidden, s)
  | some u =>
    if u.user_type ≠ UserType.PROVIDER then (.forbidden, s)
    else
      match data with
      | none => (.serverError, s)
      | some d =>
        if d.name = none ∨ d.category_id = none ∨ d.address = none ∨
            d.capacity = none ∨ d.price_per_hour = none then
          (.missingFields, s)
        else
          let v : VenueRow :=
            { id := s.nextVenueId, provider_id := u.id,
              category_id := d.category_id.getD 0, name := d.name.getD "",
              description := d.description, address := d.address.getD "",
              latitude := d.latitude, longitude := d.longitude,
              capacity := d.capacity.getD 0,
              price_per_hour := d.price_per_hour.getD "",
              status := "UNDER_REVIEW" }
          if fault then (.dbError, s)
          else
            (.createdVenue v.id,
             { s with venues := s.venues ++ [v],
                      nextVenueId := s.nextVenueId + 1 })

/-- Number of `users` rows carrying a given email. -/
def emailCount (us : List UserRow) (e : String) : Nat :=
  (us.filter (fun u => u.email == e)).length

/-! ## Concrete fixtures used by the closed theorems -/

/-- A concrete stand-in for the external bcrypt hasher. -/
def demoHash (p : String) : String := String.append "hash:" p

/-- A concrete stand-in for the external bcrypt verifier, matching
`demoHash`. -/
def demoCheck (h p : String) : Bool := h == demoHash p

/-- The empty database, as created by `db.create_all()`. -/
def emptyDB : DBState :=
  { users := [], customerProfiles := [], providerProfiles := [], venues := [],
    nextUserId := 1, nextVenueId := 1 }

/-- A well-formed registration body with role `admin`. -/
def adminReq : RegisterRequest :=
  { email := some "a@b.com", password := some "pw123456",
    phone_number := some "555-0100", user_type := some "admin" }

/-- A well-formed registration body with a role string outside the enum. -/
def wizardReq : RegisterRequest :=
  { email := some "w@b.com", password := some "pw123456",
    phone_number := some "555-0101", user_type := some "wizard" }

/-- A valid customer registration body. -/
def custReq : RegisterRequest :=
  { email := some "c@b.com", password := some "pw123456",
    phone_number := some "555-0102", user_type := some "customer",
    first_name := some "Ann", last_name := some "Lee" }

/-- A valid provider registration body. -/
def provReq : RegisterRequest :=
  { email := some "p@b.com", password := some "pw123456",
    phone_number := some "555-0103", user_type := some "provider",
    company_name := some "Acme" }

/-! ## Claims -/

/-- Claim C1 (code bug): registration is not the atomic two-step write the
spec requires.  The handler commits the `User` row before examining the role,
so with role `admin` it answers 400 `invalidUserType` yet one committed user
row remains; with a role outside the enum it answers 500 `dbError`, not a
`ValidationError`; and a storage fault during the profile write answers 500
while the already-committed user row survives the rollback. -/
theorem register_rollback_not_atomic :
    (register demoHash ⟨false, false⟩ emptyDB (some adminReq)).1 =
      RegisterResult.invalidUserType ∧
    ((register demoHash ⟨false, false⟩ emptyDB (some adminReq)).2).users.length = 1 ∧
    (register demoHash ⟨false, false⟩ emptyDB (some wizardReq)).1 =
      RegisterResult.dbError ∧
    RegisterResult.statusCode RegisterResult.dbError = 500 ∧
    (register demoHash ⟨false, true⟩ emptyDB (some custReq)).1 =
      RegisterResult.dbError ∧
    ((register demoHash ⟨false, true⟩ emptyDB (some custReq)).2).users.length = 1 := by
  decide

/-- Claim C3: a registration body that misses email, password, phone number
or role, or whose uppercased role is CUSTOMER with first or last name
missing, or PROVIDER with company name missing, is answered with a 400
validation failure and the database is untouched. -/
theorem register_missing_fields_rejected (hashFn : String → String)
    (f : Faults) (s : DBState) (d : RegisterRequest)
    (h : d.email = none ∨ d.password = none ∨ d.phone_number = none ∨
      d.user_type = none ∨
      (pyUpper (d.user_type.getD "") = "CUSTOMER" ∧
        (d.first_name = none ∨ d.last_name = none)) ∨
      (pyUpper (d.user_type.getD "") = "PROVIDER" ∧ d.company_name = none)) :
    ((register hashFn f s (some d)).1).statusCode = 400 ∧
    (register hashFn f s (some d)).2 = s := by
  by_cases h1 : d.email = none ∨ d.password = none ∨ d.phone_number = none ∨
      d.user_type = none
  · simp only [register, if_pos h1]
    exact ⟨rfl, trivial⟩
  · by_cases h2 : pyUpper (d.user_type.getD "") = "CUSTOMER" ∧
        (d.first_name = none ∨ d.last_name = none)
    · simp only [register, if_neg h1, if_pos h2]
      exact ⟨rfl, trivial⟩
    · by_cases h3 : pyUpper (d.user_type.getD "") = "PROVIDER" ∧
          d.company_name = none
      · simp only [register, if_neg h1, if_neg h2, if_pos h3]
        exact ⟨rfl, trivial⟩
      · rcases h with h | h | h | h | h | h
        · exact absurd (Or.inl h) h1
        · exact absurd (Or.inr (Or.inl h)) h1
        · exact absurd (Or.inr (Or.inr (Or.inl h))) h1
        · exact absurd (Or.inr (Or.inr (Or.inr h))) h1
        · exact absurd h h2
        · exact absurd h h3

/-- Witness for C3 at a concrete input: a provider registration without
`company_name` is refused with a 400 and the empty database stays empty. -/
theorem register_missing_fields_rejected_witness :
    ((register demoHash ⟨false, false⟩ emptyDB
        (some { email := some "p@b.com", password := some "pw123456",
                phone_number := some "555-0103",
                user_type := some "provider" })).1).statusCode = 400 ∧
    (register demoHash ⟨false, false⟩ emptyDB
        (some { email := some "p@b.com", password := some "pw123456",
                phone_number := some "555-0103",
                user_type := some "provider" })).2 = emptyDB :=
  register_missing_fields_rejected demoHash ⟨false, false⟩ emptyDB _
    (Or.inr (Or.inr (Or.inr (Or.inr (Or.inr ⟨by decide, rfl⟩)))))

/-- Claim C2: a registration that returns 201 has written exactly one new
user row and exactly one new profile row of the matching kind, linked by the
same id, and has not touched the other profile table; the role echoed in the
response is CUSTOMER or PROVIDER. -/
theorem register_success_creates_linked_profile (hashFn : String → String)
    (f : Faults) (s : DBState) (d : RegisterRequest) (uid : Nat)
    (em ty : String) (s' : DBState)
    (h : register hashFn f s (some d) = (RegisterResult.created uid em ty, s')) :
    (ty = "CUSTOMER" ∨ ty = "PROVIDER") ∧
    (ty = "CUSTOMER" →
      ∃ u p, s'.users = s.users ++ [u] ∧
        s'.customerProfiles = s.customerProfiles ++ [p] ∧
        u.id = uid ∧ p.user_id = uid ∧
        s'.providerProfiles = s.providerProfiles) ∧
    (ty = "PROVIDER" →
      ∃ u p, s'.users = s.users ++ [u] ∧
        s'.providerProfiles = s.providerProfiles ++ [p] ∧
        u.id = uid ∧ p.user_id = uid ∧
        s'.customerProfiles = s.customerProfiles) := by
  simp only [register] at h
  split at h
  · simp at h
  · split at h
    · simp at h
    · split at h
      · simp at h
      · split at h
        · simp at h
        · split at h
          · simp at h
          · split at h
            · simp at h
            · split at h
              · split at h
                · simp at h
                · simp only [Prod.mk.injEq, RegisterResult.created.injEq,
                    UserType.value] at h
                  obtain ⟨⟨hid, hem, hty⟩, hs⟩ := h
                  subst hid hem hty hs
                  refine ⟨Or.inl rfl, fun _ => ?_,
                    fun hpp => absurd hpp (by decide)⟩
                  exact ⟨_, _, rfl, rfl, rfl, rfl, rfl⟩
              · split at h
                · simp at h
                · simp only [Prod.mk.injEq, RegisterResult.created.injEq,
                    UserType.value] at h
                  obtain ⟨⟨hid, hem, hty⟩, hs⟩ := h
                  subst hid hem hty hs
                  refine ⟨Or.inr rfl, fun hcc => absurd hcc (by decide),
                    fun _ => ?_⟩
                  exact ⟨_, _, rfl, rfl, rfl, rfl, rfl⟩
              · simp at h

/-- Witness for C2: registering the concrete customer body on the empty
database succeeds and yields the linked pair of rows. -/
theorem register_success_creates_linked_profile_witness :
    ("CUSTOMER" = "CUSTOMER" ∨ ("CUSTOMER" : String) = "PROVIDER") ∧
    (("CUSTOMER" : String) = "CUSTOMER" →
      ∃ u p, ((register demoHash ⟨false, false⟩ emptyDB (some custReq)).2).users =
          emptyDB.users ++ [u] ∧
        ((register demoHash ⟨false, false⟩ emptyDB (some custReq)).2).customerProfiles =
          emptyDB.customerProfiles ++ [p] ∧
        u.id = 1 ∧ p.user_id = 1 ∧
        ((register demoHash ⟨false, false⟩ emptyDB (some custReq)).2).providerProfiles =
          emptyDB.providerProfiles) ∧
    (("CUSTOMER" : String) = "PROVIDER" →
      ∃ u p, ((register demoHash ⟨false, false⟩ emptyDB (some custReq)).2).users =
          emptyDB.users ++ [u] ∧
        ((register demoHash ⟨false, false⟩ emptyDB (some custReq)).2).providerProfiles =
          emptyDB.providerProfiles ++ [p] ∧
        u.id = 1 ∧ p.user_id = 1 ∧
        ((register demoHash ⟨false, false⟩ emptyDB (some custReq)).2).customerProfiles =
          emptyDB.customerProfiles) :=
  register_success_creates_linked_profile demoHash ⟨false, false⟩ emptyDB custReq
    1 "c@b.com" "CUSTOMER" _ (by decide)

/-- A registered customer row used by several witnesses. -/
def alice : UserRow :=
  { id := 1, email := "a@b.com", password_hash := demoHash "pw123456",
    phone_number := "555-0100", user_type := .CUSTOMER }

/-- A database holding the one registered customer `alice` with her profile
row. -/
def aliceDB : DBState :=
  { users := [alice],
    customerProfiles := [{ user_id := 1, first_name := "Ann", last_name := "Lee" }],
    providerProfiles := [], venues := [], nextUserId := 2, nextVenueId := 1 }

/-- A second registration attempt reusing the email of `alice`. -/
def dupEmailReq : RegisterRequest :=
  { email := some "a@b.com", password := some "pw999999",
    phone_number := some "555-0999", user_type := some "customer",
    first_name := some "An", last_name := some "Le" }

/-- A registration attempt with a fresh email but the phone number of
`alice`. -/
def dupPhoneReq : RegisterRequest :=
  { email := some "b@b.com", password := some "pw999999",
    phone_number := some "555-0100", user_type := some "customer",
    first_name := some "Bea", last_name := some "Orr" }

/-- Claim C4: a registration whose body passes input validation but whose
email already belongs to a user is answered 409 `emailConflict`, the database
is untouched, and exactly one user row carries that email afterwards. -/
theorem register_duplicate_email_conflict (hashFn : String → String)
    (f : Faults) (s : DBState) (d : RegisterRequest) (e : String)
    (hval : ¬ (d.email = none ∨ d.password = none ∨ d.phone_number = none ∨
      d.user_type = none ∨
      (pyUpper (d.user_type.getD "") = "CUSTOMER" ∧
        (d.first_name = none ∨ d.last_name = none)) ∨
      (pyUpper (d.user_type.getD "") = "PROVIDER" ∧ d.company_name = none)))
    (he : d.email = some e)
    (hex : ∃ u, u ∈ s.users ∧ u.email = e)
    (huniq : ∀ e2, emailCount s.users e2 ≤ 1) :
    register hashFn f s (some d) = (RegisterResult.emailConflict, s) ∧
    RegisterResult.statusCode RegisterResult.emailConflict = 409 ∧
    emailCount ((register hashFn f s (some d)).2).users e = 1 := by
  obtain ⟨u, hu, hue⟩ := hex
  have hguard1 : ¬ (d.email = none ∨ d.password = none ∨ d.phone_number = none ∨
      d.user_type = none) := fun hc => hval (by tauto)
  have hguard2 : ¬ (pyUpper (d.user_type.getD "") = "CUSTOMER" ∧
      (d.first_name = none ∨ d.last_name = none)) := fun hc => hval (by tauto)
  have hguard3 : ¬ (pyUpper (d.user_type.getD "") = "PROVIDER" ∧
      d.company_name = none) := fun hc => hval (by tauto)
  have hany : s.users.any (fun v => v.email == d.email.getD "") = true := by
    rw [List.any_eq_true]
    refine ⟨u, hu, ?_⟩
    rw [he]
    simp [hue]
  have hcount : emailCount s.users e = 1 := by
    have hmem : u ∈ s.users.filter (fun v => v.email == e) :=
      List.mem_filter.mpr ⟨hu, by simp [hue]⟩
    have hge : 0 < emailCount s.users e :=
      List.length_pos.mpr (List.ne_nil_of_mem hmem)
    exact Nat.le_antisymm (huniq e) hge
  have hreg : register hashFn f s (some d) = (RegisterResult.emailConflict, s) := by
    simp only [register, if_neg hguard1, if_neg hguard2, if_neg hguard3, hany,
      if_true]
  refine ⟨hreg, rfl, ?_⟩
  rw [hreg]
  exact hcount

/-- Witness for C4: registering the email of `alice` a second time. -/
theorem register_duplicate_email_conflict_witness :
    register demoHash ⟨false, false⟩ aliceDB (some dupEmailReq) =
      (RegisterResult.emailConflict, aliceDB) ∧
    RegisterResult.statusCode RegisterResult.emailConflict = 409 ∧
    emailCount ((register demoHash ⟨false, false⟩ aliceDB
      (some dupEmailReq)).2).users "a@b.com" = 1 :=
  register_duplicate_email_conflict demoHash ⟨false, false⟩ aliceDB dupEmailReq
    "a@b.com" (by decide) rfl ⟨alice, by decide, rfl⟩
    (fun _ => List.length_filter_le _ _)

/-- Claim C5: with email and password present, an unknown email and a wrong
password for a known email both produce the one `invalidCredentials` answer,
so the two failure causes are not distinguishable from the response. -/
theorem login_failures_indistinguishable (checkFn : String → String → Bool)
    (s1 s2 : DBState) (d1 d2 : LoginRequest) (e1 p1 e2 p2 : String)
    (u : UserRow)
    (h1e : d1.email = some e1) (h1p : d1.password = some p1)
    (h2e : d2.email = some e2) (h2p : d2.password = some p2)
    (hno : s1.users.find? (fun v => v.email == e1) = none)
    (hfound : s2.users.find? (fun v => v.email == e2) = some u)
    (hwrong : checkFn u.password_hash p2 = false) :
    login checkFn s1 (some d1) = LoginResult.invalidCredentials ∧
    login checkFn s2 (some d2) = LoginResult.invalidCredentials ∧
    login checkFn s1 (some d1) = login checkFn s2 (some d2) := by
  have ha : login checkFn s1 (some d1) = LoginResult.invalidCredentials := by
    simp only [login, h1e, h1p, hno]
  have hb : login checkFn s2 (some d2) = LoginResult.invalidCredentials := by
    simp only [login, h2e, h2p, hfound, hwrong]
    simp
  exact ⟨ha, hb, ha.trans hb.symm⟩

/-- Witness for C5: a login with an unregistered email and a login for
`alice` with a wrong password give the identical failure response. -/
theorem login_failures_indistinguishable_witness :
    login demoCheck emptyDB
      (some { email := some "ghost@b.com", password := some "pw123456" }) =
      LoginResult.invalidCredentials ∧
    login demoCheck aliceDB
      (some { email := some "a@b.com", password := some "wrongpass" }) =
      LoginResult.invalidCredentials ∧
    login demoCheck emptyDB
      (some { email := some "ghost@b.com", password := some "pw123456" }) =
    login demoCheck aliceDB
      (some { email := some "a@b.com", password := some "wrongpass" }) :=
  login_failures_indistinguishable demoCheck emptyDB aliceDB _ _
    "ghost@b.com" "pw123456" "a@b.com" "wrongpass" alice
    rfl rfl rfl rfl rfl (by decide) (by decide)

/-- Claim C10: a registration body that passes validation, carries a fresh
email but a phone number already present, is rejected only by the storage
layer during the user commit: the answer is 500 `dbError` (not the 409 of the
email pre-check) and the rollback leaves the database unchanged. -/
theorem register_duplicate_phone_storage_error (hashFn : String → String)
    (f : Faults) (s : DBState) (d : RegisterRequest) (ph : String)
    (hval : ¬ (d.email = none ∨ d.password = none ∨ d.phone_number = none ∨
      d.user_type = none ∨
      (pyUpper (d.user_type.getD "") = "CUSTOMER" ∧
        (d.first_name = none ∨ d.last_name = none)) ∨
      (pyUpper (d.user_type.getD "") = "PROVIDER" ∧ d.company_name = none)))
    (hfresh : ∀ u ∈ s.users, u.email ≠ d.email.getD "")
    (hph : d.phone_number = some ph)
    (hdup : ∃ u, u ∈ s.users ∧ u.phone_number = ph) :
    register hashFn f s (some d) = (RegisterResult.dbError, s) ∧
    RegisterResult.statusCode RegisterResult.dbError = 500 ∧
    RegisterResult.statusCode RegisterResult.dbError ≠ 409 := by
  obtain ⟨u, hu, hup⟩ := hdup
  have hguard1 : ¬ (d.email = none ∨ d.password = none ∨ d.phone_number = none ∨
      d.user_type = none) := fun hc => hval (by tauto)
  have hguard2 : ¬ (pyUpper (d.user_type.getD "") = "CUSTOMER" ∧
      (d.first_name = none ∨ d.last_name = none)) := fun hc => hval (by tauto)
  have hguard3 : ¬ (pyUpper (d.user_type.getD "") = "PROVIDER" ∧
      d.company_name = none) := fun hc => hval (by tauto)
  have hany : s.users.any (fun v => v.email == d.email.getD "") = false := by
    rw [List.any_eq_false]
    intro v hv
    simpa using hfresh v hv
  have hany2 : s.users.any
      (fun v => v.phone_number == d.phone_number.getD "") = true := by
    rw [List.any_eq_true]
    refine ⟨u, hu, ?_⟩
    rw [hph]
    simp [hup]
  refine ⟨?_, rfl, by decide⟩
  cases hts : UserType.fromString (pyUpper (d.user_type.getD "")) with
  | none =>
    simp only [register, if_neg hguard1, if_neg hguard2, if_neg hguard3, hany,
      hts]
    simp
  | some t =>
    simp only [register, if_neg hguard1, if_neg hguard2, if_neg hguard3, hany,
      hts, hany2]
    simp

/-- Witness for C10: registering `dupPhoneReq` against the database holding
`alice` answers 500 and leaves the database as it was. -/
theorem register_duplicate_phone_storage_error_witness :
    register demoHash ⟨false, false⟩ aliceDB (some dupPhoneReq) =
      (RegisterResult.dbError, aliceDB) ∧
    RegisterResult.statusCode RegisterResult.dbError = 500 ∧
    RegisterResult.statusCode RegisterResult.dbError ≠ 409 :=
  register_duplicate_phone_storage_error demoHash ⟨false, false⟩ aliceDB
    dupPhoneReq "555-0100" (by decide) (by decide) rfl ⟨alice, by decide, rfl⟩

/-- A registered provider row. -/
def bob : UserRow :=
  { id := 1, email := "p@v.com", password_hash := demoHash "pw123456",
    phone_number := "555-0200", user_type := .PROVIDER }

/-- A database holding the one registered provider `bob` with his profile
row. -/
def bobDB : DBState :=
  { users := [bob], customerProfiles := [],
    providerProfiles := [{ user_id := 1, company_name := "Acme" }],
    venues := [], nextUserId := 2, nextVenueId := 1 }

/-- A complete venue-creation body. -/
def venueReq : VenueRequest :=
  { name := some "Hall", category_id := some 2, address := some "1 Main St",
    capacity := some 120, price_per_hour := some "150.00" }

/-- Claim C6: a venue-creation request whose resolved identity is no user at
all, or a user whose role is not PROVIDER, is answered 403 `forbidden` with
the database untouched, whatever the body. -/
theorem add_venue_requires_provider (s : DBState) (uid : Nat)
    (data : Option VenueRequest) (fault : Bool)
    (h : s.users.find? (fun v => v.id == uid) = none ∨
      ∃ u, s.users.find? (fun v => v.id == uid) = some u ∧
        u.user_type ≠ UserType.PROVIDER) :
    add_venue s uid data fault = (VenueResult.forbidden, s) ∧
    VenueResult.statusCode VenueResult.forbidden = 403 := by
  refine ⟨?_, rfl⟩
  rcases h with h | ⟨u, hu, ht⟩
  · simp only [add_venue, h]
  · simp only [add_venue, hu]
    rw [if_pos ht]

/-- Witness for C6: the customer `alice` sending a full venue body is
refused with 403 and the database is unchanged. -/
theorem add_venue_requires_provider_witness :
    add_venue aliceDB 1 (some venueReq) false =
      (VenueResult.forbidden, aliceDB) ∧
    VenueResult.statusCode VenueResult.forbidden = 403 :=
  add_venue_requires_provider aliceDB 1 (some venueReq) false
    (Or.inr ⟨alice, rfl, by decide⟩)

/-- Claim C7: a venue creation that returns 201 has appended exactly one
venue row; its provider id is the resolved identity (whatever `provider_id`
the body may carry), its category id is the one supplied, its status is
`UNDER_REVIEW`, and no other table changed. -/
theorem add_venue_success_links_resolved_provider (s : DBState) (uid : Nat)
    (d : VenueRequest) (fault : Bool) (vid : Nat) (s' : DBState)
    (h : add_venue s uid (some d) fault = (VenueResult.createdVenue vid, s')) :
    ∃ v : VenueRow, s'.venues = s.venues ++ [v] ∧
      v.provider_id = uid ∧ d.category_id = some v.category_id ∧
      v.status = "UNDER_REVIEW" ∧ v.id = vid ∧
      s'.users = s.users ∧ s'.customerProfiles = s.customerProfiles ∧
      s'.providerProfiles = s.providerProfiles := by
  simp only [add_venue] at h
  split at h
  · simp at h
  · rename_i u hfind
    split at h
    · simp at h
    · split at h
      · simp at h
      · rename_i hvalid
        split at h
        · simp at h
        · simp only [Prod.mk.injEq, VenueResult.createdVenue.injEq] at h
          obtain ⟨hid, hs⟩ := h
          subst hid hs
          have huid : u.id = uid := by
            have := List.find?_some hfind
            simpa using this
          have hcat : d.category_id ≠ none := fun hc => hvalid (by tauto)
          obtain ⟨c, hc⟩ := Option.ne_none_iff_exists'.mp hcat
          refine ⟨_, rfl, huid, ?_, rfl, rfl, rfl, rfl, rfl⟩
          rw [hc]
          rfl

/-- Witness for C7: the provider `bob` creating `venueReq` yields the one
venue row linked to him, in category 2, `UNDER_REVIEW`. -/
theorem add_venue_success_links_resolved_provider_witness :
    ∃ v : VenueRow,
      ((add_venue bobDB 1 (some venueReq) false).2).venues =
        bobDB.venues ++ [v] ∧
      v.provider_id = 1 ∧ venueReq.category_id = some v.category_id ∧
      v.status = "UNDER_REVIEW" ∧ v.id = 1 ∧
      ((add_venue bobDB 1 (some venueReq) false).2).users = bobDB.users ∧
      ((add_venue bobDB 1 (some venueReq) false).2).customerProfiles =
        bobDB.customerProfiles ∧
      ((add_venue bobDB 1 (some venueReq) false).2).providerProfiles =
        bobDB.providerProfiles :=
  add_venue_success_links_resolved_provider bobDB 1 venueReq false 1 _
    (by decide)

/-- Claim C8 counterexample: when the provider `bob` sends no request body
at all, the handler does not answer the claimed 400 validation failure: the
missing `not data` guard lets `field in data` raise, a 500 server error
(though indeed no venue row is created). -/
theorem add_venue_no_body_not_validation :
    add_venue bobDB 1 none false = (VenueResult.serverError, bobDB) ∧
    VenueResult.statusCode VenueResult.serverError = 500 ∧
    VenueResult.statusCode VenueResult.serverError ≠ 400 := by
  decide

/-- Claim C8 as amended: for an authorized provider, a body missing name,
category, address, capacity or price is answered 400 `missingFields` with the
database untouched; a missing body instead escapes as an unhandled server
error, also leaving the database untouched. -/
theorem add_venue_missing_fields_rejected (s : DBState) (uid : Nat)
    (d : VenueRequest) (fault : Bool) (u : UserRow)
    (hfind : s.users.find? (fun v => v.id == uid) = some u)
    (hprov : u.user_type = UserType.PROVIDER)
    (hmiss : d.name = none ∨ d.category_id = none ∨ d.address = none ∨
      d.capacity = none ∨ d.price_per_hour = none) :
    add_venue s uid (some d) fault = (VenueResult.missingFields, s) ∧
    VenueResult.statusCode VenueResult.missingFields = 400 ∧
    add_venue s uid none fault = (VenueResult.serverError, s) := by
  refine ⟨?_, rfl, ?_⟩
  · simp only [add_venue, hfind]
    rw [if_neg (by simp [hprov]), if_pos hmiss]
  · simp only [add_venue, hfind]
    rw [if_neg (by simp [hprov])]

/-- Witness for the amended C8: `bob` sending a body without a name is
answered 400, and sending no body at all hits the server error. -/
theorem add_venue_missing_fields_rejected_witness :
    add_venue bobDB 1
      (some { name := none, category_id := some 2, address := some "1 Main St",
              capacity := some 120, price_per_hour := some "150.00" }) false =
      (VenueResult.missingFields, bobDB) ∧
    VenueResult.statusCode VenueResult.missingFields = 400 ∧
    add_venue bobDB 1 none false = (VenueResult.serverError, bobDB) :=
  add_venue_missing_fields_rejected bobDB 1 _ false bob rfl rfl (Or.inl rfl)

/-- A customer user whose profile row is missing (reachable only through
storage edits outside the workflows, but `get_profile` must still be total
over it). -/
def carol : UserRow :=
  { id := 3, email := "c@v.com", password_hash := demoHash "pw123456",
    phone_number := "555-0300", user_type := .CUSTOMER }

/-- A database holding `carol` and no profile rows at all. -/
def orphanDB : DBState :=
  { users := [carol], customerProfiles := [], providerProfiles := [],
    venues := [], nextUserId := 4, nextVenueId := 1 }

/-- Claim C9 counterexample: for the CUSTOMER `carol` with no matching
profile row, `get_profile` does not fail with the claimed `NotFoundError`:
the unguarded `profile_data.first_name` dereference raises, a 500, not a
404. -/
theorem get_profile_missing_row_crashes :
    get_profile orphanDB 3 = ProfileResult.attrError ∧
    ProfileResult.attrError ≠ ProfileResult.userNotFound ∧
    ProfileResult.attrError ≠ ProfileResult.profileNotFound ∧
    ProfileResult.statusCode ProfileResult.attrError ≠ 404 := by
  decide

/-- Claim C9 as amended: no user for the identity gives `userNotFound`; a
CUSTOMER, resp. PROVIDER, whose profile row exists gets the role-shaped data;
a role with no handled profile shape (ADMIN) gives the defensive
`profileNotFound`; but a CUSTOMER or PROVIDER whose profile row is missing
raises an attribute error instead of any 404. -/
theorem get_profile_role_shaped (s : DBState) (uid : Nat) :
    (s.users.find? (fun v => v.id == uid) = none →
      get_profile s uid = ProfileResult.userNotFound) ∧
    (∀ u p, s.users.find? (fun v => v.id == uid) = some u →
      u.user_type = UserType.CUSTOMER →
      s.customerProfiles.find? (fun q => q.user_id == u.id) = some p →
      get_profile s uid =
        ProfileResult.customerData u.id u.email p.first_name p.last_name) ∧
    (∀ u p, s.users.find? (fun v => v.id == uid) = some u →
      u.user_type = UserType.PROVIDER →
      s.providerProfiles.find? (fun q => q.user_id == u.id) = some p →
      get_profile s uid =
        ProfileResult.providerData u.id u.email p.company_name p.is_verified) ∧
    (∀ u, s.users.find? (fun v => v.id == uid) = some u →
      u.user_type = UserType.ADMIN →
      get_profile s uid = ProfileResult.profileNotFound) ∧
    (∀ u, s.users.find? (fun v => v.id == uid) = some u →
      u.user_type = UserType.CUSTOMER →
      s.customerProfiles.find? (fun q => q.user_id == u.id) = none →
      get_profile s uid = ProfileResult.attrError) ∧
    (∀ u, s.users.find? (fun v => v.id == uid) = some u →
      u.user_type = UserType.PROVIDER →
      s.providerProfiles.find? (fun q => q.user_id == u.id) = none →
      get_profile s uid = ProfileResult.attrError) := by
  refine ⟨?_, ?_, ?_, ?_, ?_, ?_⟩
  · intro hfind
    simp only [get_profile, hfind]
  · intro u p hfind htype hprof
    simp only [get_profile, hfind, htype, hprof]
  · intro u p hfind htype hprof
    simp only [get_profile, hfind, htype, hprof]
  · intro u hfind htype
    simp only [get_profile, hfind, htype]
  · intro u hfind htype hprof
    simp only [get_profile, hfind, htype, hprof]
  · intro u hfind htype hprof
    simp only [get_profile, hfind, htype, hprof]

/-- Witness for the amended C9: `alice` gets her customer-shaped profile
data back. -/
theorem get_profile_role_shaped_witness :
    get_profile aliceDB 1 =
      ProfileResult.customerData 1 "a@b.com" "Ann" "Lee" :=
  (get_profile_role_shaped aliceDB 1).2.1 alice
    { user_id := 1, first_name := "Ann", last_name := "Lee" } rfl rfl rfl

end VenueSphere
